import Mathlib

/-!
Verification development for scripts/extract_builder_metadata.py
(ZettaAI/vscode-zutils).

The script is reflection-driven: it walks a registry of "builder"
functions, unwraps decorator layers, classifies type annotations, and
serializes the result to JSON.  We shallowly embed the pure logic:

* Python objects relevant to `unwrap_decorated_function` become `PyObj`,
  an inductive carrying exactly the attributes the unwrapper inspects
  (`__wrapped__`, `fn`, `_wrapped_fn`, `func`, `__call__`, `__closure__`,
  `__name__`, the class name, callability and truthiness).
* Type annotations become `Ann`, mirroring what `typing.get_origin` /
  `typing.get_args` report: no origin (plain classes, literal constants),
  `typing.Union`, `types.UnionType` (the `X | Y` operator form, a distinct
  object from `typing.Union` at runtime), `typing.Literal`, or an ordinary
  parameterized class.
* Fallible reflection calls (`inspect.signature`, `get_type_hints`,
  `inspect.getfile`) become `Except ExcKind` values carried by the
  registry-entry model; exception classes become the `ExcKind` enum so the
  script's `except (...)` clauses can be modelled faithfully.
-/

/-- Python exception classes that appear in the script's `except` clauses
(`TypeError`, `ValueError`, `AttributeError`, `NameError`, `OSError`) plus
a stand-in for any other exception class. -/
inductive ExcKind where
  | typeErr
  | valueErr
  | attrErr
  | nameErr
  | osErr
  | otherErr
  deriving DecidableEq, Repr

/-- Substring test on character lists (`pat` occurs inside `s`), used to
model Python's `"DictSupportingTensorOp" in class_name` membership test. -/
def isSubAt (pat s : List Char) : Bool :=
  match pat, s with
  | [], _ => true
  | _ :: _, [] => false
  | p :: ps, c :: cs => p == c && isSubAt ps cs

/-- Search for `pat` at every suffix of `s`. -/
def subSearch (pat : List Char) : List Char → Bool
  | [] => isSubAt pat []
  | c :: cs => isSubAt pat (c :: cs) || subSearch pat cs

/-- `strContains s pat` models Python's `pat in s` on strings. -/
def strContains (s pat : String) : Bool :=
  subSearch pat.toList s.toList

/-- Model of a Python object as seen by `unwrap_decorated_function`
(src/scripts/extract_builder_metadata.py, lines 191-263).  An `Option`
field is `none` when the attribute is absent (`hasattr` is false); for
`__closure__`, `none` also covers the attribute holding `None`, since the
code's `hasattr(...) and original_fn.__closure__` guard treats both the
same.  A closure cell that is `none` models an *empty* cell, whose
`cell_contents` access raises `ValueError` in CPython. -/
inductive PyObj : Type where
  | mk (isCallable : Bool) (truthy : Bool)
       (name : Option String) (typeName : String)
       (wrapped fnAttr wrappedFn funcAttr : Option PyObj)
       (hasCall : Bool)
       (closure : Option (List (Option PyObj)))

def PyObj.isCallable : PyObj → Bool
  | .mk c _ _ _ _ _ _ _ _ _ => c

def PyObj.truthy : PyObj → Bool
  | .mk _ t _ _ _ _ _ _ _ _ => t

def PyObj.name : PyObj → Option String
  | .mk _ _ n _ _ _ _ _ _ _ => n

def PyObj.typeName : PyObj → String
  | .mk _ _ _ tn _ _ _ _ _ _ => tn

def PyObj.wrapped : PyObj → Option PyObj
  | .mk _ _ _ _ w _ _ _ _ _ => w

def PyObj.fnAttr : PyObj → Option PyObj
  | .mk _ _ _ _ _ f _ _ _ _ => f

def PyObj.wrappedFn : PyObj → Option PyObj
  | .mk _ _ _ _ _ _ wf _ _ _ => wf

def PyObj.funcAttr : PyObj → Option PyObj
  | .mk _ _ _ _ _ _ _ fu _ _ => fu

def PyObj.hasCall : PyObj → Bool
  | .mk _ _ _ _ _ _ _ _ h _ => h

def PyObj.closure : PyObj → Option (List (Option PyObj))
  | .mk _ _ _ _ _ _ _ _ _ cl => cl

/-- Outcome of one iteration of the `while` loop in
`unwrap_decorated_function`: it descends into an inner callable, finds no
matching rule (the loop breaks), or raises an exception. -/
inductive StepResult where
  | descended (next : PyObj)
  | noMatch
  | raised (e : ExcKind)

/-- The closure-cell scan (lines 240-257).  For each cell in order,
`cell.cell_contents` is read first (raising `ValueError` on an empty cell);
a truthy callable with a `__name__` then triggers the comparison
`cell_fn.__name__ != original_fn.__name__`, which reads the *wrapper's*
`__name__` and raises `AttributeError` when the wrapper has none. -/
def scanCells (selfName : Option String) : List (Option PyObj) → Except ExcKind (Option PyObj)
  | [] => .ok none
  | none :: _ => .error .valueErr
  | some v :: rest =>
    if v.truthy && v.isCallable then
      match v.name with
      | some cn =>
        match selfName with
        | none => .error .attrErr
        | some sn =>
          if cn ≠ sn && cn ≠ "wrapped" && ¬ cn.startsWith "_" then
            .ok (some v)
          else
            scanCells selfName rest
      | none => scanCells selfName rest
    else
      scanCells selfName rest

/-- Rule 2 of the unwrapper (lines 212-220): descend into a callable `fn`
attribute when the wrapper's class name contains "DictSupportingTensorOp"
or the wrapper has `__call__`. -/
def ruleFnAttr (f : PyObj) : Option PyObj :=
  match f.fnAttr with
  | some g =>
    if g.isCallable && (strContains f.typeName "DictSupportingTensorOp" || f.hasCall) then
      some g
    else
      none
  | none => none

/-- Rules 3 and 4 (lines 223-236): descend into a callable `_wrapped_fn`
or `func` attribute. -/
def ruleCallableAttr (a : Option PyObj) : Option PyObj :=
  match a with
  | some g => if g.isCallable then some g else none
  | none => none

/-- One iteration of the unwrap loop body (lines 200-261), trying the five
rules in source order; at most one rule fires per iteration because each
match ends in `continue`. -/
def unwrapStep (f : PyObj) : StepResult :=
  match f.wrapped with
  | some g => .descended g
  | none =>
    match ruleFnAttr f with
    | some g => .descended g
    | none =>
      match ruleCallableAttr f.wrappedFn with
      | some g => .descended g
      | none =>
        match ruleCallableAttr f.funcAttr with
        | some g => .descended g
        | none =>
          match f.closure with
          | some cells =>
            if cells.isEmpty then
              .noMatch
            else
              match scanCells f.name cells with
              | .error e => .raised e
              | .ok (some g) => .descended g
              | .ok none => .noMatch
          | none => .noMatch

/-- The `while depth < max_unwrap_depth` loop with remaining fuel as the
first argument: each iteration performs at most one unwrap and the loop
breaks as soon as no rule matches. -/
def unwrapAux : Nat → PyObj → Except ExcKind PyObj
  | 0, f => .ok f
  | n + 1, f =>
    match unwrapStep f with
    | .descended g => unwrapAux n g
    | .noMatch => .ok f
    | .raised e => .error e

/-- `unwrap_decorated_function` (lines 191-263), with
`max_unwrap_depth = 10`.  The result is `Except` because the closure-cell
scan can raise. -/
def unwrap_decorated_function (f : PyObj) : Except ExcKind PyObj :=
  unwrapAux 10 f

/-- `N` layers of the standard `functools.wraps` shape: each wrapper's only
unwrap-relevant attribute is the `__wrapped__` back-reference. -/
def nestWrapped (base : PyObj) : Nat → PyObj
  | 0 => base
  | n + 1 =>
    .mk true true (some "wrapper") "function"
      (some (nestWrapped base n)) none none none true none

/-- Objects visited by the unwrap loop, including the one a raising step
is about to inspect. -/
def unwrapTrace : Nat → PyObj → List PyObj
  | 0, _ => []
  | n + 1, f =>
    f :: (match unwrapStep f with
          | .descended g => unwrapTrace n g
          | _ => [])

/-- Whether one loop iteration on `f` raises. -/
def stepRaises (f : PyObj) : Bool :=
  match unwrapStep f with
  | .raised _ => true
  | _ => false

/-- A plain function object: callable, named, no wrapper attributes, no
closure.  No unwrap rule matches it. -/
def plainFn : PyObj :=
  .mk true true (some "plain_fn") "function" none none none none true none

/-- A callable whose `__closure__` holds a single empty cell: CPython
raises `ValueError` when `cell_contents` is read on it. -/
def emptyCellFn : PyObj :=
  .mk true true (some "empty_cell_fn") "function" none none none none true
    (some [none])

theorem unwrapAux_nest (k : Nat) :
    ∀ (n : Nat) (base : PyObj), unwrapStep base = StepResult.noMatch →
      unwrapAux k (nestWrapped base n) = Except.ok (nestWrapped base (n - k)) := by
  induction k with
  | zero =>
    intro n base _
    simp [unwrapAux]
  | succ k ih =>
    intro n base h
    cases n with
    | zero =>
      simp [nestWrapped, unwrapAux, h]
    | succ m =>
      have hstep : unwrapStep (nestWrapped base (m + 1)) =
          StepResult.descended (nestWrapped base m) := rfl
      rw [show m + 1 - (k + 1) = m - k from Nat.succ_sub_succ m k]
      simp only [unwrapAux, hstep]
      exact ih m base h

/-- C1: for a callable wrapped `N` times solely via `__wrapped__` around an
innermost callable matching no unwrap rule, the unwrapper returns the
innermost callable when `N ≤ 10`, and the callable reached after exactly 10
unwrap steps when `N > 10`. -/
theorem unwrap_nested_wrapped (N : Nat) (base : PyObj)
    (hbase : unwrapStep base = StepResult.noMatch) :
    (N ≤ 10 → unwrap_decorated_function (nestWrapped base N) = Except.ok base) ∧
    (N > 10 → unwrap_decorated_function (nestWrapped base N) =
      Except.ok (nestWrapped base (N - 10))) := by
  constructor
  · intro hle
    have := unwrapAux_nest 10 N base hbase
    rw [unwrap_decorated_function, this, Nat.sub_eq_zero_of_le hle]
    rfl
  · intro _
    exact unwrapAux_nest 10 N base hbase

/-- Witness for C1 at concrete depths 3 and 12. -/
theorem unwrap_nested_wrapped_witness :
    unwrap_decorated_function (nestWrapped plainFn 3) = Except.ok plainFn ∧
    unwrap_decorated_function (nestWrapped plainFn 12) =
      Except.ok (nestWrapped plainFn 2) := by
  refine ⟨(unwrap_nested_wrapped 3 plainFn rfl).1 (by decide), ?_⟩
  exact (unwrap_nested_wrapped 12 plainFn rfl).2 (by decide)

/-- C2 counterexample: `emptyCellFn` is a callable input on which
`unwrap_decorated_function` raises `ValueError` — the closure-cell scan
reads `cell_contents` of the empty cell before any guard can skip it. -/
theorem unwrap_total_counterexample :
    PyObj.isCallable emptyCellFn = true ∧
    unwrap_decorated_function emptyCellFn = Except.error ExcKind.valueErr := by
  exact ⟨rfl, rfl⟩

theorem unwrapAux_ok_of_trace_safe (k : Nat) :
    ∀ f : PyObj, (∀ g ∈ unwrapTrace k f, stepRaises g = false) →
      ∃ r, unwrapAux k f = Except.ok r := by
  induction k with
  | zero =>
    intro f _
    exact ⟨f, rfl⟩
  | succ k ih =>
    intro f h
    have hf : stepRaises f = false := h f (by simp [unwrapTrace])
    rw [show unwrapAux (k + 1) f =
        (match unwrapStep f with
         | .descended g => unwrapAux k g
         | .noMatch => Except.ok f
         | .raised e => Except.error e) from rfl]
    cases hs : unwrapStep f with
    | descended g =>
      refine ih g (fun x hx => h x ?_)
      rw [show unwrapTrace (k + 1) f =
          f :: (match unwrapStep f with
                | .descended g => unwrapTrace k g
                | _ => []) from rfl, hs]
      exact List.mem_cons_of_mem f hx
    | noMatch => exact ⟨f, rfl⟩
    | raised e =>
      rw [stepRaises, hs] at hf
      exact absurd hf (by simp)

/-- C2 (amended): `unwrap_decorated_function` returns a value without
raising for every input on whose unwrap path no loop iteration raises — in
particular whenever no scanned closure cell is empty and no scanned wrapper
lacks a `__name__`; and whenever no rule matches the input itself, the
last-known callable is returned unchanged. -/
theorem unwrap_safe_of_trace_safe (f : PyObj)
    (h : ∀ g ∈ unwrapTrace 10 f, stepRaises g = false) :
    (∃ r, unwrap_decorated_function f = Except.ok r) ∧
    (unwrapStep f = StepResult.noMatch →
      unwrap_decorated_function f = Except.ok f) := by
  constructor
  · exact unwrapAux_ok_of_trace_safe 10 f h
  · intro hnm
    rw [unwrap_decorated_function,
      show unwrapAux 10 f =
        (match unwrapStep f with
         | .descended g => unwrapAux 9 g
         | .noMatch => Except.ok f
         | .raised e => Except.error e) from rfl, hnm]

/-- Witness for C2 (amended) at the plain function. -/
theorem unwrap_safe_of_trace_safe_witness :
    (∃ r, unwrap_decorated_function plainFn = Except.ok r) ∧
    (unwrapStep plainFn = StepResult.noMatch →
      unwrap_decorated_function plainFn = Except.ok plainFn) := by
  refine unwrap_safe_of_trace_safe plainFn ?_
  intro g hg
  have : unwrapTrace 10 plainFn = [plainFn] := rfl
  rw [this, List.mem_singleton] at hg
  rw [hg]
  rfl

/-! ## Type annotation classifier -/

/-- A literal constant value, as found inside `typing.Literal[...]`
arguments. -/
inductive LitVal where
  | iv (n : Int)
  | sv (s : String)
  | bv (b : Bool)
  | noneLit
  deriving DecidableEq, Repr

/-- The possible results of `typing.get_origin` on a parameterized
annotation: `typing.Union`, `types.UnionType` (what the `X | Y` operator
produces at runtime on CPython 3.10-3.13, a distinct object from
`typing.Union`), `typing.Literal`, or an ordinary class (with its
`__name__` and whether it is `collections.abc.Sequence`). -/
inductive OriginK where
  | typingUnion
  | typesUnionType
  | typingLiteral
  | cls (name : String) (isAbcSequence : Bool)
  deriving DecidableEq, Repr

/-- A type annotation value as the script's `typing` inspection sees it:
the `inspect.Parameter.empty` sentinel, an unparameterized class
(`get_origin` returns `None`), a literal constant appearing among
`Literal` arguments, or a parameterized construct with an origin and
arguments. -/
inductive Ann : Type where
  | empty
  | atom (name : String)
  | lit (v : LitVal)
  | app (origin : OriginK) (args : List Ann)

/-- `typing.get_origin`. -/
def getOrigin : Ann → Option OriginK
  | .app o _ => some o
  | _ => none

/-- `typing.get_args`. -/
def getArgs : Ann → List Ann
  | .app _ as => as
  | _ => []

/-- Whether an argument is `type(None)` (the `NoneType` class), for the
`type(None) in args` membership test. -/
def isNoneType : Ann → Bool
  | .atom n => n == "NoneType"
  | _ => false

/-- String form of a literal constant (Python `str`). -/
def litStr : LitVal → String
  | .iv n => toString n
  | .sv s => "\x27" ++ s ++ "\x27"
  | .bv true => "True"
  | .bv false => "False"
  | .noneLit => "None"

/-- String form of an origin (Python `str(origin)`). -/
def originStr : OriginK → String
  | .typingUnion => "typing.Union"
  | .typesUnionType => "types.UnionType"
  | .typingLiteral => "typing.Literal"
  | .cls n _ => n

/-- The origin's `__name__` when it has one, for the sequence-name sniff in
`_check_sequence_type`. -/
def originName : OriginK → Option String
  | .cls n _ => some n
  | .typesUnionType => some "UnionType"
  | _ => none

/-- `str(annotation)`: a deterministic rendering standing in for Python's
string conversion of annotation objects. -/
def annStr : Ann → String
  | .empty => "<empty>"
  | .atom n => n
  | .lit v => litStr v
  | .app o as =>
    originStr o ++ "[" ++
      String.intercalate ", " (as.attach.map (fun x => annStr x.1)) ++ "]"
termination_by a => sizeOf a
decreasing_by
  have := List.sizeOf_lt_of_mem x.2
  simp only [Ann.app.sizeOf_spec]
  omega

/-- `_extract_literals_from_annotation` (lines 80-110): a `Literal`
origin's arguments are returned directly; a `typing.Union` origin's
arguments are scanned for `Literal` members and, one level deeper, for
parameterized members whose own arguments contain `Literal` constructs;
every other origin yields no literals.  Note the union scan tests
`origin is typing.Union`, so `types.UnionType` origins yield no literals
either. -/
def _extract_literals_from_annotation (origin : Option OriginK) (args : List Ann) :
    List Ann :=
  if origin == some .typingLiteral then
    args
  else if origin != some .typingUnion || args.isEmpty then
    []
  else
    args.foldl
      (fun acc arg =>
        match arg with
        | .app .typingLiteral las => acc ++ las
        | .app _ ias =>
          if ias.isEmpty then
            acc
          else
            acc ++ ias.foldl
              (fun acc2 ia =>
                match ia with
                | .app .typingLiteral ls => acc2 ++ ls
                | _ => acc2) []
        | _ => acc)
      []

/-- `_check_sequence_type` (lines 113-139): sequence-ness by origin-name
sniffing ("sequence"/"list"/"tuple"/"iterable" in the lowercased name) or
by the origin being `collections.abc.Sequence`; the inner type is the
string form of the first argument when present. -/
def _check_sequence_type (origin : Option OriginK) (args : List Ann) :
    Bool × Option String :=
  match origin with
  | none => (false, none)
  | some o =>
    let byName :=
      match originName o with
      | some nm =>
        ["sequence", "list", "tuple", "iterable"].any
          (fun s => strContains nm.toLower s)
      | none => false
    let isAbc :=
      match o with
      | .cls _ b => b
      | _ => false
    if byName || isAbc then
      (true, match args with | a :: _ => some (annStr a) | [] => none)
    else
      (false, none)

/-- The fixed-shape record returned by `extract_type_info`. -/
structure TypeInfo where
  type_string : String
  origin : Option String
  args : List String
  literals : List Ann
  is_union : Bool
  is_optional : Bool
  is_sequence : Bool
  inner_type : Option String

/-- `extract_type_info` (lines 142-183).  `is_union` is the identity test
`origin is typing.Union`; `is_optional` additionally requires
`type(None) in args`. -/
def extract_type_info (rawAnn : Ann) : TypeInfo :=
  match rawAnn with
  | .empty =>
    { type_string := "Any", origin := none, args := [], literals := [],
      is_union := false, is_optional := false, is_sequence := false,
      inner_type := none }
  | a =>
    let origin := getOrigin a
    let args := getArgs a
    let literals := _extract_literals_from_annotation origin args
    let is_union := origin == some .typingUnion
    let is_optional := is_union && args.any isNoneType
    let seqInfo := _check_sequence_type origin args
    { type_string := annStr a,
      origin := origin.map originStr,
      args := args.map annStr,
      literals := literals,
      is_union := is_union,
      is_optional := is_optional,
      is_sequence := seqInfo.1,
      inner_type := seqInfo.2 }

/-- `get_type_annotation_string` (lines 186-188). -/
def get_type_annotation_string (rawAnn : Ann) : String :=
  (extract_type_info rawAnn).type_string

/-- The claim-level notion of "a union including None's type", covering
pipe-operator unions (`types.UnionType`) as well as `typing.Union` /
`typing.Optional` ones. -/
def unionWithNone (a : Ann) : Bool :=
  (getOrigin a == some .typingUnion || getOrigin a == some .typesUnionType) &&
    (getArgs a).any isNoneType

/-- The annotation `int | None` as built by the `|` operator: its origin is
`types.UnionType`, not `typing.Union`. -/
def pipeOptionalInt : Ann :=
  .app .typesUnionType [.atom "int", .atom "NoneType"]

/-- C3 counterexample: `int | None` is a union including `None`'s type,
yet `extract_type_info` reports `is_union = false` (and hence
`is_optional = false`), because the code tests `origin is typing.Union`
and the pipe operator's origin is the distinct `types.UnionType`. -/
theorem union_flags_counterexample :
    unionWithNone pipeOptionalInt = true ∧
    (extract_type_info pipeOptionalInt).is_union = false ∧
    (extract_type_info pipeOptionalInt).is_optional = false := by
  exact ⟨rfl, rfl, rfl⟩

/-- C3 (amended): for every union built as `typing.Union` /
`typing.Optional` (origin `typing.Union`) with `None`'s type among the
arguments, `extract_type_info` reports `is_optional = true` and
`is_union = true`; pipe-operator unions (origin `types.UnionType`) report
both as `false`. -/
theorem union_with_none_flags (args : List Ann)
    (h : args.any isNoneType = true) :
    ((extract_type_info (Ann.app .typingUnion args)).is_union = true ∧
      (extract_type_info (Ann.app .typingUnion args)).is_optional = true) ∧
    ((extract_type_info (Ann.app .typesUnionType args)).is_union = false ∧
      (extract_type_info (Ann.app .typesUnionType args)).is_optional = false) := by
  refine ⟨⟨rfl, ?_⟩, rfl, rfl⟩
  simp [extract_type_info, getOrigin, getArgs, h]

/-- Witness for C3 (amended) at `Optional[int]`. -/
theorem union_with_none_flags_witness :
    ((extract_type_info (Ann.app .typingUnion [.atom "int", .atom "NoneType"])).is_union = true ∧
      (extract_type_info (Ann.app .typingUnion [.atom "int", .atom "NoneType"])).is_optional = true) ∧
    ((extract_type_info (Ann.app .typesUnionType [.atom "int", .atom "NoneType"])).is_union = false ∧
      (extract_type_info (Ann.app .typesUnionType [.atom "int", .atom "NoneType"])).is_optional = false) :=
  union_with_none_flags [.atom "int", .atom "NoneType"] rfl

/-- C4: for an annotation whose origin is the `Literal` construct, the
`literals` field equals exactly the annotation's argument list, in the
same order. -/
theorem literal_args_are_literals (args : List Ann) :
    (extract_type_info (Ann.app .typingLiteral args)).literals = args := by
  rfl

/-! ## Version specifier suffix and extension naming -/

/-- Python's `str.startswith`, on character lists so that it evaluates
inside the kernel. -/
def pyStartsWith (s pat : String) : Bool :=
  isSubAt pat.toList s.toList

/-- Replace every occurrence of `pat` (nonempty) by `rep`, scanning left to
right as Python's `str.replace` does.  The fuel argument (instantiated
with the input's length) keeps the recursion structural so that the kernel
can evaluate it. -/
def replaceChars (pat rep : List Char) : Nat → List Char → List Char
  | _, [] => []
  | 0, s => s
  | fuel + 1, c :: cs =>
    if pat.isEmpty then
      c :: cs
    else if isSubAt pat (c :: cs) then
      rep ++ replaceChars pat rep fuel (cs.drop (pat.length - 1))
    else
      c :: replaceChars pat rep fuel cs

/-- Python's `str.replace(pat, rep)`. -/
def pyReplace (s pat rep : String) : String :=
  String.mk (replaceChars pat.toList rep.toList s.toList.length s.toList)

/-- Python's `s[2:]` used to strip the comparison operator. -/
def pyDrop (s : String) (n : Nat) : String :=
  String.mk (s.toList.drop n)

/-- `version_spec_to_suffix` (lines 486-507, nested inside
`convert_to_extension_format`): lower-bound specifiers get no suffix,
`==`/`<=` specifiers get an underscore-joined version suffix, anything
else is sanitized with gt/lt/eq tokens. -/
def version_spec_to_suffix (version_spec : String) : String :=
  if version_spec == ">=0.0.0" || pyStartsWith version_spec ">=" then
    ""
  else if pyStartsWith version_spec "==" then
    "_v" ++ pyReplace (pyDrop version_spec 2) "." "_"
  else if pyStartsWith version_spec "<=" then
    "_v" ++ pyReplace (pyDrop version_spec 2) "." "_"
  else
    "_v" ++ pyReplace (pyReplace (pyReplace (pyReplace version_spec "." "_") ">" "gt") "<" "lt") "=" "eq"

/-- The exported builder name (line 534):
`versioned_builder_name = builder_name + version_suffix`. -/
def versionedBuilderName (builder_name version_spec : String) : String :=
  builder_name ++ version_spec_to_suffix version_spec

/-- C5: the specifier `"==1.2.3"` yields suffix `"_v1_2_3"` and exported
name `base ++ "_v1_2_3"`; every specifier starting with `">="` yields the
empty suffix and an exported name equal to the base name. -/
theorem version_suffix_spec (base spec : String)
    (h : pyStartsWith spec ">=" = true) :
    (version_spec_to_suffix "==1.2.3" = "_v1_2_3" ∧
      versionedBuilderName base "==1.2.3" = base ++ "_v1_2_3") ∧
    (version_spec_to_suffix spec = "" ∧
      versionedBuilderName base spec = base) := by
  have h1 : version_spec_to_suffix "==1.2.3" = "_v1_2_3" := by decide
  have h2 : version_spec_to_suffix spec = "" := by
    simp [version_spec_to_suffix, h]
  refine ⟨⟨h1, ?_⟩, h2, ?_⟩
  · rw [versionedBuilderName, h1]
  · rw [versionedBuilderName, h2]
    simp

/-- Witness for C5 at the unconstrained specifier `">=0.0.0"`. -/
theorem version_suffix_spec_witness :
    (version_spec_to_suffix "==1.2.3" = "_v1_2_3" ∧
      versionedBuilderName "my_builder" "==1.2.3" = "my_builder" ++ "_v1_2_3") ∧
    (version_spec_to_suffix ">=0.0.0" = "" ∧
      versionedBuilderName "my_builder" ">=0.0.0" = "my_builder") :=
  version_suffix_spec "my_builder" ">=0.0.0" (by decide)

/-! ## Signature extraction and parameter records -/

/-- A Python runtime value used as a parameter default: `None`, a value
`json.dumps` accepts (carrying its `str` form), or one it rejects. -/
inductive PyVal where
  | noneV
  | jsonable (s : String)
  | unjsonable (s : String)
  deriving DecidableEq, Repr

/-- `inspect.Parameter.default`: the `empty` sentinel or an actual value. -/
inductive DefaultV where
  | emptyD
  | val (v : PyVal)
  deriving DecidableEq, Repr

/-- What lands in the JSON `default` field: `null`, a serialized value, or
the string-form fallback. -/
inductive DefaultOut where
  | nullv
  | value (s : String)
  | strForm (s : String)
  deriving DecidableEq, Repr

/-- Python `repr` of a string; the script applies it to the
already-stringified default (line 308). -/
def pyRepr (s : String) : String :=
  "\x27" ++ s ++ "\x27"

/-- One parameter as reported by `inspect.signature`, plus the entry the
resolved `get_type_hints` dict has for it (when resolution succeeds). -/
structure ParamRefl where
  pname : String
  rawAnn : Ann
  hint : Option Ann
  default : DefaultV
  kind : String

/-- The signature as reported by `inspect.signature`. -/
structure SigRefl where
  params : List ParamRefl
  returnAnn : Ann

/-- Reflection data of one registry entry's function: outcomes of
`inspect.signature`, `get_type_hints` and `inspect.getfile` on the
unwrapped function (each can raise), its `__name__`/`__module__` when
present, `__code__.co_firstlineno` when `__code__` exists, the class name
of the registered callable (for the name fallback and `callable_type`),
and the docstring `inspect.getdoc` returns. -/
structure FnRefl where
  sigR : Except ExcKind SigRefl
  hintsR : Except ExcKind Unit
  fname : Option String
  fmodule : Option String
  fileR : Except ExcKind String
  codeLine : Option Nat
  typeName : String
  doc : Option String

/-- The parameter record built at lines 291-308. -/
structure ParamRecord where
  name : String
  type : String
  type_info : TypeInfo
  required : Bool
  default : DefaultOut
  default_repr : Option String
  kind : String

/-- Lines 284-308: the annotation actually classified is the resolved
type hint when `get_type_hints` succeeded (`type_hints.get(param_name,
param.annotation)`), else the raw annotation; `required` is the
`empty`-sentinel test; a `None` default is emitted as `null` and skips the
serialization check; an unserializable default is replaced by its string
form with `default_repr` set to the `repr` of that string form. -/
def mkParamRecord (hintsResolved : Bool) (p : ParamRefl) : ParamRecord :=
  let ann := if hintsResolved then p.hint.getD p.rawAnn else p.rawAnn
  let ti := extract_type_info ann
  let required := p.default == DefaultV.emptyD
  match p.default with
  | .emptyD =>
    { name := p.pname, type := ti.type_string, type_info := ti,
      required := required, default := .nullv, default_repr := none,
      kind := p.kind }
  | .val .noneV =>
    { name := p.pname, type := ti.type_string, type_info := ti,
      required := required, default := .nullv, default_repr := none,
      kind := p.kind }
  | .val (.jsonable s) =>
    { name := p.pname, type := ti.type_string, type_info := ti,
      required := required, default := .value s, default_repr := none,
      kind := p.kind }
  | .val (.unjsonable s) =>
    { name := p.pname, type := ti.type_string, type_info := ti,
      required := required, default := .strForm s,
      default_repr := some (pyRepr s), kind := p.kind }

/-- The record returned by `extract_function_signature`: the parameters
dict (insertion-ordered, hence a list), the return-type string, and the
`error` key present only on the degraded path. -/
structure SigRecord where
  parameters : List ParamRecord
  return_type : String
  error : Option String

/-- Exception classes caught by the inner `except` at line 279
(`TypeError, AttributeError, NameError`). -/
def innerCaught : ExcKind → Bool
  | .typeErr | .attrErr | .nameErr => true
  | _ => false

/-- Exception classes caught by the outer `except` at line 329
(`TypeError, ValueError, AttributeError`). -/
def outerCaught : ExcKind → Bool
  | .typeErr | .valueErr | .attrErr => true
  | _ => false

/-- `str(error)` stand-in: the exception class name. -/
def excMsg : ExcKind → String
  | .typeErr => "TypeError"
  | .valueErr => "ValueError"
  | .attrErr => "AttributeError"
  | .nameErr => "NameError"
  | .osErr => "OSError"
  | .otherErr => "Exception"

/-- `extract_function_signature` (lines 266-334).  A `get_type_hints`
failure of an inner-caught class falls back to raw annotations (no error
recorded); any failure of an outer-caught class degrades to empty
parameters, `"Any"` return type and an `error` string; anything else
propagates out of the function. -/
def extract_function_signature (f : FnRefl) : Except ExcKind SigRecord :=
  match f.sigR with
  | .error e =>
    if outerCaught e then
      .ok { parameters := [], return_type := "Any",
            error := some ("Failed to extract signature: " ++ excMsg e) }
    else
      .error e
  | .ok sig =>
    match f.hintsR with
    | .ok _ =>
      .ok { parameters := sig.params.map (mkParamRecord true),
            return_type := get_type_annotation_string sig.returnAnn,
            error := none }
    | .error e =>
      if innerCaught e then
        .ok { parameters := sig.params.map (mkParamRecord false),
              return_type := get_type_annotation_string sig.returnAnn,
              error := none }
      else if outerCaught e then
        .ok { parameters := [], return_type := "Any",
              error := some ("Failed to extract signature: " ++ excMsg e) }
      else
        .error e

/-! ## Docstring parsing -/

/-- Parsed docstring information. -/
structure DocInfo where
  summary : String
  description : String
  parameters : List (String × String)
  deriving DecidableEq, Repr

/-- Python `line.split(":", 2)` (at most two splits). -/
def splitColon2 (s : String) : List String :=
  match s.splitOn ":" with
  | a :: b :: c :: rest => [a, b, String.intercalate ":" (c :: rest)]
  | parts => parts

/-- Insert-or-overwrite for the `param_docs` dict, keeping first-insertion
order as Python dicts do. -/
def updateAssoc : List (String × String) → String → String → List (String × String)
  | [], k, v => [(k, v)]
  | (k0, v0) :: rest, k, v =>
    if k0 == k then (k, v) :: rest else (k0, v0) :: updateAssoc rest k v

/-- The `param_docs[current_param] += ...` update; the key is always
present because `current_param` only ever holds inserted keys. -/
def appendAssoc : List (String × String) → String → String → List (String × String)
  | [], _, _ => []
  | (k0, v0) :: rest, k, extra =>
    if k0 == k then (k0, v0 ++ extra) :: rest
    else (k0, v0) :: appendAssoc rest k extra

/-- Parser state for the docstring loop (lines 349-372). -/
structure DocSt where
  paramDocs : List (String × String)
  currentParam : Option String
  inParams : Bool
  descLines : List String

/-- One iteration of the docstring loop (lines 354-372). -/
def docStep (st : DocSt) (raw : String) : DocSt :=
  let line := raw.trim
  if pyStartsWith line ":param " then
    let st1 : DocSt := { st with inParams := true }
    match splitColon2 line with
    | [_, p1, p2] =>
      let paramName := (pyReplace p1 "param " "").trim
      let paramDesc := p2.trim
      { st1 with paramDocs := updateAssoc st1.paramDocs paramName paramDesc,
                 currentParam := some paramName }
    | _ => st1
  else if pyStartsWith line ":" && st.currentParam.isSome then
    { st with currentParam := none, inParams := false }
  else if st.currentParam.isSome && line != "" then
    match st.currentParam with
    | some cp => { st with paramDocs := appendAssoc st.paramDocs cp (" " ++ line) }
    | none => st
  else if !st.inParams && line != "" && !(pyStartsWith line ":") then
    { st with descLines := st.descLines ++ [line] }
  else
    st

/-- `extract_docstring_info` (lines 337-378) on the docstring of the
already-unwrapped function (`inspect.getdoc` result, `none` when absent). -/
def extract_docstring_info (doc : Option String) : DocInfo :=
  match doc with
  | none => { summary := "", description := "", parameters := [] }
  | some d =>
    let lines := d.splitOn "\n"
    let summary := lines.headD ""
    let st := (lines.drop 1).foldl docStep
      { paramDocs := [], currentParam := none, inParams := false, descLines := [] }
    { summary := summary,
      description := String.intercalate " " st.descLines,
      parameters := st.paramDocs }

/-! ## Registry walk and extension format -/

/-- One registry entry: the function's reflection view (the source fields
`entry.fn` after unwrapping), the two capability flags (source names
`allow_partial` / `allow_parallel`), and the version specifier string. -/
structure RegEntry where
  fnR : FnRefl
  allowPartialFlag : Bool
  allowParallelFlag : Bool
  version_spec : String

/-- The registry: builder name to ordered entry list (a Python dict, whose
keys are unique and iterate in insertion order). -/
abbrev Registry : Type := List (String × List RegEntry)

/-- Lines 427-434: `inspect.getfile` wrapped in
`except (TypeError, OSError)`, degrading to `"unknown"`; the `ok` payload
is the path already made relative by `make_path_relative_to_package`. -/
def fileOf (f : FnRefl) : Except ExcKind String :=
  match f.fileR with
  | .ok p => .ok p
  | .error e =>
    if e == ExcKind.typeErr || e == ExcKind.osErr then .ok "unknown" else .error e

/-- Lines 436-443: `__code__.co_firstlineno` when `__code__` exists, else
`0` (the `except AttributeError` also yields `0`). -/
def lineOf (f : FnRefl) : Nat :=
  f.codeLine.getD 0

/-- The per-entry record assembled at lines 445-456. -/
structure VersionInfo where
  function_name : String
  moduleName : String
  file : String
  line_number : Nat
  allowPartialFlag : Bool
  allowParallelFlag : Bool
  version_spec : String
  signature : SigRecord
  documentation : DocInfo
  callable_type : String

/-- The loop body of `extract_builder_metadata` for one entry (lines
405-458): signature extraction (whose uncaught exceptions propagate),
docstring parsing, name/module fallbacks (`getattr(..., "__name__",
str(type(...).__name__))`, `getattr(..., "__module__", "unknown")`), file
and line lookup. -/
def mkVersionInfo (en : RegEntry) : Except ExcKind VersionInfo :=
  match extract_function_signature en.fnR with
  | .error e => .error e
  | .ok signature_info =>
    let docstring_info := extract_docstring_info en.fnR.doc
    match fileOf en.fnR with
    | .error e => .error e
    | .ok file_path =>
      .ok { function_name := en.fnR.fname.getD en.fnR.typeName,
            moduleName := en.fnR.fmodule.getD "unknown",
            file := file_path,
            line_number := lineOf en.fnR,
            allowPartialFlag := en.allowPartialFlag,
            allowParallelFlag := en.allowParallelFlag,
            version_spec := en.version_spec,
            signature := signature_info,
            documentation := docstring_info,
            callable_type := en.fnR.typeName }

/-- Mapping a fallible function over a list, stopping at the first raised
exception exactly as the Python `for` loop does. -/
def mapExcept {α β : Type} (f : α → Except ExcKind β) : List α → Except ExcKind (List β)
  | [] => .ok []
  | a :: as =>
    match f a with
    | .error e => .error e
    | .ok b =>
      match mapExcept f as with
      | .error e => .error e
      | .ok bs => .ok (b :: bs)

/-- The per-builder record stored in `metadata["builders"]`. -/
structure BuilderInfo where
  name : String
  versions : List VersionInfo
  latest_version : Option VersionInfo

/-- The statistics block; source field names are `total_builders`,
`total_entries`, `builders_with_partial`, `builders_with_parallel` (the
latter two renamed here). -/
structure Statistics where
  total_builders : Nat
  total_entries : Nat
  withPartialCount : Nat
  withParallelCount : Nat
  deriving DecidableEq, Repr

/-- Modelled from the spec: `str(Path(__file__).parent)`, constant for a
fixed installation. -/
def GENERATED_AT : String := "scripts"

/-- Modelled from the spec: `getattr(zetta_utils, "__version__",
"unknown")`, constant for a fixed installation. -/
def ZETTA_UTILS_VERSION : String := "unknown"

/-- The top-level metadata document of `extract_builder_metadata`. -/
structure Metadata where
  version : String
  generated_at : String
  zetta_utils_version : String
  builders : List (String × BuilderInfo)
  statistics : Statistics

/-- `total_entries` accumulation (line 401). -/
def totalEntries (reg : Registry) : Nat :=
  reg.foldl (fun acc p => acc + p.2.length) 0

/-- `builders_with_partial` counts *entries* whose flag is set (line 413). -/
def countPartialEntries (reg : Registry) : Nat :=
  reg.foldl (fun acc p => acc + p.2.countP (fun en => en.allowPartialFlag)) 0

/-- `builders_with_parallel` counts entries whose flag is set (line 415). -/
def countParallelEntries (reg : Registry) : Nat :=
  reg.foldl (fun acc p => acc + p.2.countP (fun en => en.allowParallelFlag)) 0

/-- One registry name's builder record (the inner loop at lines 404-464):
one `VersionInfo` per entry, `latest_version` the first version. -/
def mkBuilderInfo (p : String × List RegEntry) : Except ExcKind (String × BuilderInfo) :=
  match mapExcept mkVersionInfo p.2 with
  | .error e => .error e
  | .ok versions => .ok (p.1, BuilderInfo.mk p.1 versions versions.head?)

/-- `extract_builder_metadata` (lines 381-476): one `BuilderInfo` per
registry name (keys unique, insertion order), one `VersionInfo` per entry,
statistics from the same walk.  Any exception the loop body does not catch
propagates. -/
def extract_builder_metadata (reg : Registry) : Except ExcKind Metadata :=
  match mapExcept mkBuilderInfo reg with
  | .error e => .error e
  | .ok builders =>
    .ok { version := "1.0.0",
          generated_at := GENERATED_AT,
          zetta_utils_version := ZETTA_UTILS_VERSION,
          builders := builders,
          statistics :=
            { total_builders := builders.length,
              total_entries := totalEntries reg,
              withPartialCount := countPartialEntries reg,
              withParallelCount := countParallelEntries reg } }

/-- The flattened parameter record built at lines 521-530.  The source
dict literal copies exactly the keys `name`, `type`, `type_info`,
`required`, `default`, `kind`; in particular `default_repr` is never
copied, so that field is always absent (`none`) here. -/
structure ExtParam where
  name : String
  type : String
  type_info : TypeInfo
  required : Bool
  default : DefaultOut
  kind : String
  default_repr : Option String

def extParamOf (p : ParamRecord) : ExtParam :=
  { name := p.name, type := p.type, type_info := p.type_info,
    required := p.required, default := p.default, kind := p.kind,
    default_repr := none }

/-- The nested `metadata` object of a flattened builder (lines 543-551). -/
structure ExtBuilderMeta where
  function_name : String
  moduleName : String
  file : String
  line_number : Nat
  allowPartialFlag : Bool
  allowParallelFlag : Bool
  documentation : DocInfo

/-- One flattened builder entry (lines 536-553). -/
structure ExtBuilder where
  name : String
  parameters : List ExtParam
  version_spec : String
  metadata : ExtBuilderMeta

/-- Modelled from the spec: `DEFAULT_VERSION`, an external constant
imported from the library (`zetta_utils.builder.constants`). -/
def DEFAULT_VERSION : String := "0.0.0"

/-- The `builder_metadata.json` document. -/
structure ExtensionDoc where
  builders : List ExtBuilder
  default_version : String

def extBuilderOf (builder_name : String) (vi : VersionInfo) : ExtBuilder :=
  { name := versionedBuilderName builder_name vi.version_spec,
    parameters := vi.signature.parameters.map extParamOf,
    version_spec := vi.version_spec,
    metadata := { function_name := vi.function_name,
                  moduleName := vi.moduleName,
                  file := vi.file,
                  line_number := vi.line_number,
                  allowPartialFlag := vi.allowPartialFlag,
                  allowParallelFlag := vi.allowParallelFlag,
                  documentation := vi.documentation } }

/-- `convert_to_extension_format` (lines 479-555): every version of every
builder becomes one flat entry; builders with no versions are skipped
(which the flat map does naturally). -/
def convert_to_extension_format (m : Metadata) : ExtensionDoc :=
  { builders := (m.builders.map (fun p => p.2.versions.map (extBuilderOf p.1))).flatten,
    default_version := DEFAULT_VERSION }

/-- The content of `builder_metadata.json` as `main` computes it
(lines 586-596): metadata extraction followed by format conversion;
`json.dump` then serializes the document as a pure function of it. -/
def builderMetadataDoc (reg : Registry) : Except ExcKind ExtensionDoc :=
  (extract_builder_metadata reg).map convert_to_extension_format

/-- Modelled from the spec: the resolved installation path of the
introspected library, constant for a fixed installation. -/
def zettaPackagePath : String := "<zetta_utils-install-path>"

/-- The `package_info.json` document (line 599). -/
structure PackageInfo where
  zetta_utils_package_path : String
  deriving DecidableEq, Repr

def package_info : PackageInfo :=
  { zetta_utils_package_path := zettaPackagePath }

/-! ## Claims about parameter records and the output documents -/

/-- A parameter whose default is an object `json.dumps` rejects. -/
def pBadDefault : ParamRefl :=
  { pname := "dst", rawAnn := .atom "TensorOp", hint := none,
    default := .val (.unjsonable "<TensorOp object>"),
    kind := "POSITIONAL_OR_KEYWORD" }

/-- C6 counterexample: for a parameter whose default fails JSON
serialization, the flattened extension-format record does carry the string
form in `default`, but carries *no* `default_repr` field — the conversion
at lines 521-530 copies only `name`/`type`/`type_info`/`required`/
`default`/`kind`. -/
theorem default_repr_dropped_counterexample :
    pBadDefault.default = DefaultV.val (PyVal.unjsonable "<TensorOp object>") ∧
    (extParamOf (mkParamRecord true pBadDefault)).default =
      DefaultOut.strForm "<TensorOp object>" ∧
    (extParamOf (mkParamRecord true pBadDefault)).default_repr = none := by
  exact ⟨rfl, rfl, rfl⟩

/-- C6 (amended): an unserializable default is emitted as its string form
with `default_repr` (the `repr` of that string form) in the intermediate
signature parameter record; the flattened extension-format record keeps
the string form in `default` but drops `default_repr`. -/
theorem unserializable_default_handling (hr : Bool) (p : ParamRefl) (s : String)
    (h : p.default = DefaultV.val (PyVal.unjsonable s)) :
    (mkParamRecord hr p).default = DefaultOut.strForm s ∧
    (mkParamRecord hr p).default_repr = some (pyRepr s) ∧
    (extParamOf (mkParamRecord hr p)).default = DefaultOut.strForm s ∧
    (extParamOf (mkParamRecord hr p)).default_repr = none := by
  simp [mkParamRecord, extParamOf, h]

/-- Witness for C6 (amended) at `pBadDefault`. -/
theorem unserializable_default_handling_witness :
    (mkParamRecord true pBadDefault).default =
      DefaultOut.strForm "<TensorOp object>" ∧
    (mkParamRecord true pBadDefault).default_repr =
      some (pyRepr "<TensorOp object>") ∧
    (extParamOf (mkParamRecord true pBadDefault)).default =
      DefaultOut.strForm "<TensorOp object>" ∧
    (extParamOf (mkParamRecord true pBadDefault)).default_repr = none :=
  unserializable_default_handling true pBadDefault "<TensorOp object>" rfl

/-- C10: a declared default of `None` yields `required = false` and
`default = null`, identical in the `default` field to a parameter with no
default at all (which yields `required = true`, `default = null`);
`required` is true exactly when the default is the `empty` sentinel. -/
theorem none_default_required (hr : Bool) (p : ParamRefl) :
    (p.default = DefaultV.val PyVal.noneV →
      (mkParamRecord hr p).required = false ∧
      (mkParamRecord hr p).default = DefaultOut.nullv) ∧
    (p.default = DefaultV.emptyD →
      (mkParamRecord hr p).required = true ∧
      (mkParamRecord hr p).default = DefaultOut.nullv) ∧
    ((mkParamRecord hr p).required = true ↔ p.default = DefaultV.emptyD) := by
  refine ⟨fun h => ?_, fun h => ?_, ?_⟩
  · simp [mkParamRecord, h]
  · simp [mkParamRecord, h]
  · cases hd : p.default with
    | emptyD => simp [mkParamRecord, hd]
    | val v => cases v <;> simp [mkParamRecord, hd]

/-- A parameter declared with default `None`. -/
def pNoneDefault : ParamRefl :=
  { pname := "pad", rawAnn := .atom "int", hint := none,
    default := .val .noneV, kind := "POSITIONAL_OR_KEYWORD" }

/-- A parameter with no default at all. -/
def pNoDefault : ParamRefl :=
  { pname := "src", rawAnn := .atom "str", hint := none,
    default := .emptyD, kind := "POSITIONAL_OR_KEYWORD" }

/-- Witness for C10 at concrete parameters. -/
theorem none_default_required_witness :
    ((mkParamRecord true pNoneDefault).required = false ∧
      (mkParamRecord true pNoneDefault).default = DefaultOut.nullv) ∧
    ((mkParamRecord true pNoDefault).required = true ∧
      (mkParamRecord true pNoDefault).default = DefaultOut.nullv) :=
  ⟨(none_default_required true pNoneDefault).1 rfl,
   (none_default_required true pNoDefault).2.1 rfl⟩

/-- C8: for an empty registry the metadata document has no builders and
all four statistics totals are zero, the extension-format document has an
empty builder array, and both output documents are still produced. -/
theorem empty_registry_output :
    extract_builder_metadata ([] : Registry) = Except.ok
      { version := "1.0.0", generated_at := GENERATED_AT,
        zetta_utils_version := ZETTA_UTILS_VERSION, builders := [],
        statistics := { total_builders := 0, total_entries := 0,
                        withPartialCount := 0, withParallelCount := 0 } } ∧
    builderMetadataDoc ([] : Registry) = Except.ok
      { builders := [], default_version := DEFAULT_VERSION } ∧
    package_info = { zetta_utils_package_path := zettaPackagePath } := by
  exact ⟨rfl, rfl, rfl⟩

/-- C9: the `builder_metadata.json` document is a pure function of the
registry's reflection data, so two runs over an unchanged registry produce
identical content (`json.dump` then serializes the equal documents to
byte-identical text). -/
theorem metadata_output_deterministic (r1 r2 : Registry) (h : r1 = r2) :
    builderMetadataDoc r1 = builderMetadataDoc r2 :=
  congrArg builderMetadataDoc h

/-- A well-behaved sample registry entry. -/
def sampleEntry : RegEntry :=
  { fnR := { sigR := .ok { params := [pNoDefault], returnAnn := .atom "NoneType" },
             hintsR := .ok (), fname := some "build_thing",
             fmodule := some "zetta_utils.thing",
             fileR := .ok "<zetta_utils>/zetta_utils/thing.py",
             codeLine := some 42, typeName := "function",
             doc := some "Build a thing." },
    allowPartialFlag := true, allowParallelFlag := false,
    version_spec := ">=0.0.0" }

def sampleRegistry : Registry := [("build_thing", [sampleEntry])]

/-- Witness for C9 at a one-entry registry. -/
theorem metadata_output_deterministic_witness :
    builderMetadataDoc sampleRegistry = builderMetadataDoc sampleRegistry :=
  metadata_output_deterministic sampleRegistry sampleRegistry rfl

/-- A registry entry whose `get_type_hints` call raises `NameError` (the
typical unresolvable-forward-reference failure) while everything else
succeeds. -/
def eHintsNameErr : RegEntry :=
  { fnR := { sigR := .ok { params := [{ pname := "x", rawAnn := .atom "int",
                                        hint := some (.atom "int"),
                                        default := .emptyD,
                                        kind := "POSITIONAL_OR_KEYWORD" }],
                           returnAnn := .atom "NoneType" },
             hintsR := .error .nameErr, fname := some "f",
             fmodule := some "m",
             fileR := .ok "<zetta_utils>/zetta_utils/f.py",
             codeLine := some 10, typeName := "function", doc := none },
    allowPartialFlag := false, allowParallelFlag := false,
    version_spec := ">=0.0.0" }

/-- C7 counterexample: on an entry whose type-hint resolution raises
(`NameError`, caught by the inner handler at line 279), the entry is *not*
degraded to an empty parameter list with an error string — the code falls
back to raw annotations, keeps the full parameter list and records no
error. -/
theorem hint_failure_no_degradation_counterexample :
    eHintsNameErr.fnR.hintsR = Except.error ExcKind.nameErr ∧
    (mkVersionInfo eHintsNameErr).map
      (fun vi => (vi.signature.parameters.length, vi.signature.error)) =
      Except.ok (1, none) := by
  exact ⟨rfl, rfl⟩

/-! ## Per-entry recoverability (C7, amended) -/

/-- The signature-extraction path of an entry only meets handled
exceptions: `inspect.signature` either succeeds or raises an outer-caught
class, and `get_type_hints` either succeeds or raises a class some handler
catches. -/
def sigRecoverable (f : FnRefl) : Bool :=
  (match f.sigR with
   | .ok _ => true
   | .error k => outerCaught k) &&
  (match f.hintsR with
   | .ok _ => true
   | .error k => innerCaught k || outerCaught k)

/-- `inspect.getfile` either succeeds or raises one of the two caught
classes (`TypeError`, `OSError`). -/
def fileRecoverable (f : FnRefl) : Bool :=
  match f.fileR with
  | .ok _ => true
  | .error k => k == ExcKind.typeErr || k == ExcKind.osErr

/-- Every reflection failure of the entry is one the script handles. -/
def entryRecoverable (en : RegEntry) : Bool :=
  sigRecoverable en.fnR && fileRecoverable en.fnR

theorem efs_ok (f : FnRefl) (h : sigRecoverable f = true) :
    ∃ sr, extract_function_signature f = Except.ok sr := by
  rw [sigRecoverable, Bool.and_eq_true] at h
  obtain ⟨h1, h2⟩ := h
  cases hs : f.sigR with
  | error e =>
    rw [hs] at h1
    have h1e : outerCaught e = true := h1
    exact ⟨{ parameters := [], return_type := "Any",
             error := some ("Failed to extract signature: " ++ excMsg e) },
           by simp [extract_function_signature, hs, h1e]⟩
  | ok sig =>
    cases hh : f.hintsR with
    | ok u =>
      exact ⟨{ parameters := sig.params.map (mkParamRecord true),
               return_type := get_type_annotation_string sig.returnAnn,
               error := none },
             by simp [extract_function_signature, hs, hh]⟩
    | error e =>
      rw [hh] at h2
      have h2e : (innerCaught e || outerCaught e) = true := h2
      cases hie : innerCaught e with
      | true =>
        exact ⟨{ parameters := sig.params.map (mkParamRecord false),
                 return_type := get_type_annotation_string sig.returnAnn,
                 error := none },
               by simp [extract_function_signature, hs, hh, hie]⟩
      | false =>
        have ho : outerCaught e = true := by
          rw [hie] at h2e
          simpa using h2e
        exact ⟨{ parameters := [], return_type := "Any",
                 error := some ("Failed to extract signature: " ++ excMsg e) },
               by simp [extract_function_signature, hs, hh, hie, ho]⟩

theorem efs_degraded (f : FnRefl) (k : ExcKind) (hs : f.sigR = Except.error k)
    (ho : outerCaught k = true) :
    extract_function_signature f = Except.ok
      { parameters := [], return_type := "Any",
        error := some ("Failed to extract signature: " ++ excMsg k) } := by
  simp [extract_function_signature, hs, ho]

theorem fileOf_ok (f : FnRefl) (h : fileRecoverable f = true) :
    ∃ s, fileOf f = Except.ok s := by
  rw [fileRecoverable] at h
  cases hf : f.fileR with
  | ok p => exact ⟨p, by simp [fileOf, hf]⟩
  | error k =>
    rw [hf] at h
    have h' : k = ExcKind.typeErr ∨ k = ExcKind.osErr := by simpa using h
    rcases h' with h' | h' <;> subst h' <;>
      exact ⟨"unknown", by simp [fileOf, hf]⟩

theorem fileOf_unknown (f : FnRefl) (k : ExcKind) (hf : f.fileR = Except.error k)
    (hk : (k == ExcKind.typeErr || k == ExcKind.osErr) = true) :
    fileOf f = Except.ok "unknown" := by
  simp [fileOf, hf, hk]

theorem mkVersionInfo_ok (en : RegEntry) (h : entryRecoverable en = true) :
    ∃ vi, mkVersionInfo en = Except.ok vi := by
  rw [entryRecoverable, Bool.and_eq_true] at h
  obtain ⟨hvs, hvf⟩ := h
  obtain ⟨sr, hsr⟩ := efs_ok en.fnR hvs
  obtain ⟨fp, hfp⟩ := fileOf_ok en.fnR hvf
  refine ⟨{ function_name := en.fnR.fname.getD en.fnR.typeName,
            moduleName := en.fnR.fmodule.getD "unknown", file := fp,
            line_number := lineOf en.fnR,
            allowPartialFlag := en.allowPartialFlag,
            allowParallelFlag := en.allowParallelFlag,
            version_spec := en.version_spec, signature := sr,
            documentation := extract_docstring_info en.fnR.doc,
            callable_type := en.fnR.typeName }, ?_⟩
  simp [mkVersionInfo, hsr, hfp]

theorem mkVersionInfo_fields (en : RegEntry) (vi : VersionInfo)
    (h : mkVersionInfo en = Except.ok vi) :
    extract_function_signature en.fnR = Except.ok vi.signature ∧
    fileOf en.fnR = Except.ok vi.file ∧
    vi.line_number = lineOf en.fnR := by
  rw [mkVersionInfo] at h
  cases hsr : extract_function_signature en.fnR with
  | error e => rw [hsr] at h; exact Except.noConfusion h
  | ok sr =>
    rw [hsr] at h
    cases hfp : fileOf en.fnR with
    | error e => rw [hfp] at h; exact Except.noConfusion h
    | ok fp =>
      rw [hfp] at h
      simp only at h
      injection h with h'
      subst h'
      exact ⟨rfl, rfl, rfl⟩

theorem mapExcept_length {α β : Type} (f : α → Except ExcKind β) :
    ∀ (l : List α) (bs : List β), mapExcept f l = Except.ok bs →
      bs.length = l.length := by
  intro l
  induction l with
  | nil =>
    intro bs h
    rw [mapExcept] at h
    injection h with h'
    rw [← h']
    rfl
  | cons a as ih =>
    intro bs h
    rw [mapExcept] at h
    cases hfa : f a with
    | error e => rw [hfa] at h; exact Except.noConfusion h
    | ok b =>
      rw [hfa] at h
      cases hrest : mapExcept f as with
      | error e => rw [hrest] at h; exact Except.noConfusion h
      | ok bs2 =>
        rw [hrest] at h
        simp only at h
        injection h with h'
        rw [← h', List.length_cons, List.length_cons, ih bs2 hrest]

theorem mapExcept_forall2 {α β : Type} (f : α → Except ExcKind β) :
    ∀ l : List α, (∀ a ∈ l, ∃ b, f a = Except.ok b) →
      ∃ bs, mapExcept f l = Except.ok bs ∧
        List.Forall₂ (fun a b => f a = Except.ok b) l bs := by
  intro l
  induction l with
  | nil => exact fun _ => ⟨[], rfl, List.Forall₂.nil⟩
  | cons a as ih =>
    intro h
    obtain ⟨b, hb⟩ := h a (List.mem_cons_self a as)
    obtain ⟨bs, hbs, hf⟩ := ih (fun x hx => h x (List.mem_cons_of_mem a hx))
    exact ⟨b :: bs, by simp [mapExcept, hb, hbs], List.Forall₂.cons hb hf⟩

theorem mkBuilderInfo_versions (p : String × List RegEntry)
    (b : String × BuilderInfo) (h : mkBuilderInfo p = Except.ok b) :
    b.2.versions.length = p.2.length := by
  rw [mkBuilderInfo] at h
  cases hv : mapExcept mkVersionInfo p.2 with
  | error e => rw [hv] at h; exact Except.noConfusion h
  | ok vs =>
    rw [hv] at h
    simp only at h
    injection h with h'
    rw [← h']
    exact mapExcept_length mkVersionInfo p.2 vs hv

theorem builders_lengths {reg : List (String × List RegEntry)}
    {bs : List (String × BuilderInfo)}
    (h : List.Forall₂ (fun p b => mkBuilderInfo p = Except.ok b) reg bs) :
    bs.map (fun b => b.2.versions.length) = reg.map (fun p => p.2.length) := by
  induction h with
  | nil => rfl
  | cons hr _ ih =>
    simp only [List.map_cons, ih]
    rw [mkBuilderInfo_versions _ _ hr]

/-- C7 (amended): when every reflection failure is of a class the script
catches, extraction completes with one output entry per registry entry;
an `inspect.signature` failure degrades its entry to empty parameters,
`"Any"` return type and an error string; an `inspect.getfile` failure
degrades the file to `"unknown"`; a missing `__code__` degrades the line
to `0`.  (A `get_type_hints` failure of an inner-caught class instead
falls back to raw annotations with no error recorded, and exception
classes outside the handled ones propagate and abort the run.) -/
theorem per_entry_failures_degrade (reg : Registry)
    (hreg : ∀ p ∈ reg, ∀ en ∈ p.2, entryRecoverable en = true) :
    (∃ m, extract_builder_metadata reg = Except.ok m ∧
      m.builders.map (fun b => b.2.versions.length) =
        reg.map (fun p => p.2.length)) ∧
    (∀ en : RegEntry, entryRecoverable en = true →
      ∃ vi, mkVersionInfo en = Except.ok vi ∧
        (∀ k, en.fnR.sigR = Except.error k →
          vi.signature.parameters = [] ∧
          vi.signature.return_type = "Any" ∧
          vi.signature.error =
            some ("Failed to extract signature: " ++ excMsg k)) ∧
        (∀ k, en.fnR.fileR = Except.error k → vi.file = "unknown") ∧
        (en.fnR.codeLine = none → vi.line_number = 0)) := by
  constructor
  · have hinner : ∀ p ∈ reg, ∃ b, mkBuilderInfo p = Except.ok b := by
      intro p hp
      obtain ⟨vs, hvs, _⟩ := mapExcept_forall2 mkVersionInfo p.2
        (fun en hen => mkVersionInfo_ok en (hreg p hp en hen))
      refine ⟨(p.1, BuilderInfo.mk p.1 vs vs.head?), ?_⟩
      simp [mkBuilderInfo, hvs]
    obtain ⟨bs, hbs, hf2⟩ := mapExcept_forall2 mkBuilderInfo reg hinner
    refine ⟨{ version := "1.0.0", generated_at := GENERATED_AT,
              zetta_utils_version := ZETTA_UTILS_VERSION, builders := bs,
              statistics :=
                { total_builders := bs.length,
                  total_entries := totalEntries reg,
                  withPartialCount := countPartialEntries reg,
                  withParallelCount := countParallelEntries reg } }, ?_, ?_⟩
    · rw [extract_builder_metadata, hbs]
    · exact builders_lengths hf2
  · intro en h
    have h' := h
    rw [entryRecoverable, Bool.and_eq_true] at h'
    obtain ⟨hvs, hvf⟩ := h'
    obtain ⟨vi, hvi⟩ := mkVersionInfo_ok en h
    obtain ⟨hsig, hfile, hline⟩ := mkVersionInfo_fields en vi hvi
    refine ⟨vi, hvi, ?_, ?_, ?_⟩
    · intro k hk
      rw [sigRecoverable, Bool.and_eq_true] at hvs
      have t := hvs.1
      rw [hk] at t
      have ho : outerCaught k = true := t
      have h3 := hsig.symm.trans (efs_degraded en.fnR k hk ho)
      injection h3 with h4
      exact ⟨by rw [h4], by rw [h4], by rw [h4]⟩
    · intro k hk
      rw [fileRecoverable, hk] at hvf
      have hvf' : (k == ExcKind.typeErr || k == ExcKind.osErr) = true := hvf
      have h3 := hfile.symm.trans (fileOf_unknown en.fnR k hk hvf')
      simpa using h3
    · intro hnone
      rw [hline, lineOf, hnone]
      rfl

/-- An entry on which `inspect.signature` raises `TypeError`,
`inspect.getfile` raises `OSError`, and `__code__` is absent. -/
def eDegraded : RegEntry :=
  { fnR := { sigR := .error .typeErr, hintsR := .ok (), fname := none,
             fmodule := none, fileR := .error .osErr, codeLine := none,
             typeName := "builtin_function_or_method", doc := none },
    allowPartialFlag := false, allowParallelFlag := false,
    version_spec := ">=0.0.0" }

def degradedRegistry : Registry := [("degraded_builder", [eDegraded])]

/-- Witness for C7 (amended) at a registry whose only entry fails
signature, file and line lookup in the handled ways. -/
theorem per_entry_failures_degrade_witness :
    (∃ m, extract_builder_metadata degradedRegistry = Except.ok m ∧
      m.builders.map (fun b => b.2.versions.length) =
        degradedRegistry.map (fun p => p.2.length)) ∧
    (∀ en : RegEntry, entryRecoverable en = true →
      ∃ vi, mkVersionInfo en = Except.ok vi ∧
        (∀ k, en.fnR.sigR = Except.error k →
          vi.signature.parameters = [] ∧
          vi.signature.return_type = "Any" ∧
          vi.signature.error =
            some ("Failed to extract signature: " ++ excMsg k)) ∧
        (∀ k, en.fnR.fileR = Except.error k → vi.file = "unknown") ∧
        (en.fnR.codeLine = none → vi.line_number = 0)) := by
  refine per_entry_failures_degrade degradedRegistry ?_
  intro p hp en hen
  rw [degradedRegistry, List.mem_singleton] at hp
  subst hp
  rw [List.mem_singleton] at hen
  subst hen
  rfl
